import Mathlib

/-!
Verification of the PCX row/lane reconstruction engine (`src/reader.rs`)
against its natural-language specification.

The engine is shallowly embedded: machine bytes are `ℕ` (all values stay
below 256 where it matters, and bit operations are modelled with
`Nat.land` / shifts exactly as the `u8` source computes them), the
mutable caller buffers are `List ℕ`, and the `&mut self` state of the
Rust `Reader` is passed explicitly: every stateful operation returns the
result together with the reader state at the moment it returns, so
"reads no bytes" is provable as state preservation.

Two collaborators of the engine live outside the translated source
(`header.rs` and `rle.rs` are not part of the sources). They are
modelled from the spec at their interface boundary, as the spec
requires; each such definition carries a `Modelled from the spec:`
comment.
-/

namespace Pcx

/-- Outcome classification of an engine operation.  `panicked` stands for a
Rust panic (out-of-bounds slice index, inverted slice range,
`copy_from_slice` length mismatch, `unreachable!()`), which the source
distinguishes from the recoverable `io::Error` kinds `InvalidInput`,
`InvalidData` and `UnexpectedEof`. -/
inductive PcxError where
  | invalidInput
  | invalidData
  | unexpectedEof
  | panicked
deriving DecidableEq, Repr

abbrev PcxResult (α : Type) := Except PcxError α

instance {ε α : Type} [DecidableEq ε] [DecidableEq α] :
    DecidableEq (Except ε α) := fun
  | .ok a, .ok b => decidable_of_iff (a = b) (by simp)
  | .ok _, .error _ => .isFalse (by simp)
  | .error _, .ok _ => .isFalse (by simp)
  | .error e, .error f => decidable_of_iff (e = f) (by simp)

/-- Modelled from the spec: the Header Model is an external collaborator
(`header.rs` is not among the sources); the spec fixes its interface:
version/size/bit depth/plane count/stored lane length, an optional
palette length in {2,4,8,16,256}, and an embedded palette of 3-byte
colors (a fixed 16-entry table, hence a total function here). -/
structure Header where
  bit_depth : ℕ
  size : ℕ × ℕ
  number_of_color_planes : ℕ
  lane_length : ℕ
  palette_length : Option ℕ
  palette : ℕ → ℕ × ℕ × ℕ

/-- Modelled from the spec: `lane_proper_length` = ceil(width × bit_depth / 8),
the number of meaningful decompressed bytes per plane-row. -/
def Header.lane_proper_length (h : Header) : ℕ :=
  (h.size.1 * h.bit_depth + 7) / 8

/-- Modelled from the spec: `lane_padding` = `lane_length − lane_proper_length`
(0 or 1 by the PCX even-length-lane rule). -/
def Header.lane_padding (h : Header) : ℕ :=
  h.lane_length - h.lane_proper_length

/-- The Rust `Reader`.  `decompressed` is the stream of bytes still to be
produced by the run-length decompressor, `rawRest` the remaining bytes
of the raw underlying stream that `Decompressor::finish()` hands back.
Modelled from the spec: the decompression codec itself is out of scope;
the spec specifies it only by its interface (a byte-buffer read with
standard blocking-read semantics returning 0 at end-of-stream, a
single-byte read, and a terminal `finish`), so both byte streams are
modelled as the byte lists those reads will yield, with reads being
greedy (an in-memory source, as in the tests of the repository). -/
structure Reader where
  header : Header
  decompressed : List ℕ
  rawRest : List ℕ
  num_lanes_read : ℕ

def Reader.size (r : Reader) : ℕ × ℕ := r.header.size

def Reader.is_paletted (r : Reader) : Bool := r.header.palette_length.isSome

def Reader.palette_length (r : Reader) : Option ℕ := r.header.palette_length

/-- The `read_u8` of the byteorder crate, repeated `n` times, discarding the bytes
(the padding-skip loop of `next_lane`); fails with `UnexpectedEof` when
the stream runs out. -/
def skipBytes : ℕ → List ℕ → PcxResult (List ℕ)
  | 0, s => .ok s
  | _ + 1, [] => .error .unexpectedEof
  | n + 1, _ :: rest => skipBytes n rest

/-- `Reader::next_lane` (reader.rs:121-140).  Checks the buffer-length
contract (violation panics), performs one `Decompressor::read` into the
buffer — the source ignores the returned byte count, so the buffer is
filled with however many bytes are available — then skips
`lane_padding` bytes via `read_u8` and increments the lane counter. -/
def next_lane (rd : Reader) (buffer : List ℕ) : PcxResult (List ℕ) × Reader :=
  if buffer.length ≠ rd.header.lane_proper_length then (.error .panicked, rd)
  else
    let n := min buffer.length rd.decompressed.length
    let filled := rd.decompressed.take n ++ buffer.drop n
    let rd1 : Reader := { rd with decompressed := rd.decompressed.drop n }
    match skipBytes rd.header.lane_padding rd1.decompressed with
    | .error e => (.error e, { rd1 with decompressed := [] })
    | .ok s2 =>
        (.ok filled,
         { rd1 with decompressed := s2, num_lanes_read := rd1.num_lanes_read + 1 })

/-- One assignment of the `unpack_bits!` macro body (reader.rs:77):
`buffer[i*(8/bits) + j] =
   (buffer[offset + i] & (((1 << bits) - 1) << (8 - bits - j))) >> (8 - bits - j)`,
reading from and writing to the same buffer (the in-place aliasing of the
source is preserved); an out-of-range index is a panic. -/
def unpackAssign (bits offset i j : ℕ) (buf : List ℕ) : Option (List ℕ) :=
  match buf.get? (offset + i) with
  | none => none
  | some b =>
      let pos := i * (8 / bits) + j
      if pos < buf.length then
        some (buf.set pos
          ((Nat.land b (((1 <<< bits) - 1) <<< (8 - bits - j))) >>> (8 - bits - j)))
      else none

/-- Inner loop `for j in 0..(8/bits)` of `unpack_bits!`; the first argument
is the remaining iteration count, `j` the current sub-index. -/
def unpackJs (bits offset i : ℕ) : ℕ → ℕ → List ℕ → Option (List ℕ)
  | 0, _, buf => some buf
  | fuel + 1, j, buf =>
      match unpackAssign bits offset i j buf with
      | none => none
      | some buf1 => unpackJs bits offset i fuel (j + 1) buf1

/-- Outer loop `for i in 0..lane_length` of `unpack_bits!`. -/
def unpackIs (bits offset : ℕ) : ℕ → ℕ → List ℕ → Option (List ℕ)
  | 0, _, buf => some buf
  | fuel + 1, i, buf =>
      match unpackJs bits offset i (8 / bits) 0 buf with
      | none => none
      | some buf1 => unpackIs bits offset fuel (i + 1) buf1

/-- The `unpack_bits!` macro of `next_row_paletted` (reader.rs:73-81). -/
def unpack_bits (bits offset lane_length : ℕ) (buf : List ℕ) : Option (List ℕ) :=
  unpackIs bits offset lane_length 0 buf

/-- `Reader::next_row_paletted` (reader.rs:58-95). -/
def next_row_paletted (rd : Reader) (buffer : List ℕ) :
    PcxResult (List ℕ) × Reader :=
  if ¬ rd.is_paletted then (.error .invalidInput, rd)
  else if rd.palette_length = some 256 then
    next_lane rd buffer
  else if rd.header.number_of_color_planes = 1 then
    let lane_length := rd.header.lane_proper_length
    let offset := buffer.length - lane_length
    match next_lane rd (buffer.drop offset) with
    | (.error e, rd1) => (.error e, rd1)
    | (.ok sub, rd1) =>
        let buffer1 := buffer.take offset ++ sub
        match rd.header.bit_depth with
        | 1 =>
            (match unpack_bits 1 offset lane_length buffer1 with
             | some b2 => (.ok b2, rd1)
             | none => (.error .panicked, rd1))
        | 2 =>
            (match unpack_bits 2 offset lane_length buffer1 with
             | some b2 => (.ok b2, rd1)
             | none => (.error .panicked, rd1))
        | 4 =>
            (match unpack_bits 4 offset lane_length buffer1 with
             | some b2 => (.ok b2, rd1)
             | none => (.error .panicked, rd1))
        | _ => (.error .panicked, rd1)
  else
    (.ok buffer, rd)

/-- `Reader::next_row_rgb` (reader.rs:102-114). -/
def next_row_rgb (rd : Reader) (r g b : List ℕ) :
    PcxResult (List ℕ × List ℕ × List ℕ) × Reader :=
  if rd.is_paletted then (.error .invalidInput, rd)
  else if rd.num_lanes_read % 3 ≠ 0 then (.error .invalidInput, rd)
  else
    match next_lane rd r with
    | (.error e, rd1) => (.error e, rd1)
    | (.ok r1, rd1) =>
        match next_lane rd1 g with
        | (.error e, rd2) => (.error e, rd2)
        | (.ok g1, rd2) =>
            match next_lane rd2 b with
            | (.error e, rd3) => (.error e, rd3)
            | (.ok b1, rd3) => (.ok (r1, g1, b1), rd3)

/-- Overwrite `l` starting at `pos` with `data` (the effect of
`stream.read` writing `data.length` bytes at the start of the slice
`temp_buffer[pos..]`); only used with `pos + data.length ≤ l.length`. -/
def writeAt (l : List ℕ) (pos : ℕ) (data : List ℕ) : List ℕ :=
  l.take pos ++ data ++ l.drop (pos + data.length)

/-- `dst[lo..hi].copy_from_slice(src)`: panics (`none`) when the range is
inverted, out of bounds, or its length differs from `src.length`. -/
def copyRange (dst : List ℕ) (lo hi : ℕ) (src : List ℕ) : Option (List ℕ) :=
  if lo ≤ hi ∧ hi ≤ dst.length ∧ src.length = hi - lo then
    some (dst.take lo ++ src ++ dst.drop hi)
  else none

/-- The embedded-palette copy loop of `read_palette` (reader.rs:152-154):
`buffer[i*3..(i+1)*3].copy_from_slice(&header.palette[i])` for
`i` in `[start, start+count)`; a too-short destination slice panics. -/
def writeEmbeddedFrom (pal : ℕ → ℕ × ℕ × ℕ) : ℕ → ℕ → List ℕ → Option (List ℕ)
  | _, 0, buf => some buf
  | i, k + 1, buf =>
      if (i + 1) * 3 ≤ buf.length then
        writeEmbeddedFrom pal (i + 1) k
          (writeAt buf (i * 3) [(pal i).1, (pal i).2.1, (pal i).2.2])
      else none

/-- The flattened bytes of embedded-palette entries `i, i+1, …, i+k-1` in
R,G,B order — the expected content of the caller buffer after the copy
loop. -/
def palFlat (pal : ℕ → ℕ × ℕ × ℕ) : ℕ → ℕ → List ℕ
  | _, 0 => []
  | i, k + 1 => (pal i).1 :: (pal i).2.1 :: (pal i).2.2 :: palFlat pal (i + 1) k

/-- The trailing-palette refill loop of `read_palette` (reader.rs:173-188).
`temp` is the 769-byte staging buffer, `pos` the write offset, `stream`
the remaining raw bytes.  Each iteration performs
`stream.read(&mut temp_buffer[pos..(769 - pos)])` — reproduced verbatim,
including the inverted slice range (a panic) whenever `pos > 769 - pos` —
with the greedy in-memory read semantics; on a zero read it checks the
0x0C marker at `temp[pos]` and copies the two wrap-around halves into the
caller buffer.  The first argument is fuel; the caller supplies more fuel
than the loop can consume, so fuel exhaustion is unreachable. -/
def paletteLoop : ℕ → List ℕ → ℕ → List ℕ → List ℕ →
    PcxResult (List ℕ × ℕ × List ℕ)
  | 0, _, _, _, _ => .error .panicked
  | fuel + 1, temp, pos, stream, buffer =>
      if 769 - pos < pos then .error .panicked
      else
        let request := 769 - pos - pos
        let read := min request stream.length
        if read = 0 then
          match temp.get? pos with
          | none => .error .panicked
          | some m =>
              if m ≠ 12 then .error .invalidData
              else
                match copyRange buffer 0 (769 - pos - 1) (temp.drop (pos + 1)) with
                | none => .error .panicked
                | some buf1 =>
                    match copyRange buf1 (769 - pos - 1) 768 (temp.take pos) with
                    | none => .error .panicked
                    | some buf2 => .ok (buf2, 256, stream)
        else
          paletteLoop fuel (writeAt temp pos (stream.take read))
            ((pos + read) % 769) (stream.drop read) buffer

/-- `Reader::read_palette` (reader.rs:148-189).  Consumes the reader; the
result carries the caller buffer, the color count, and the bytes left
unread in the decompressed and raw streams (so "no stream interaction"
is provable).  In the trailing case `Decompressor::finish()` consumes
the decompression wrapper, so no decompressed bytes remain. -/
def read_palette (rd : Reader) (buffer : List ℕ) :
    PcxResult (List ℕ × ℕ × List ℕ × List ℕ) :=
  match rd.header.palette_length with
  | some n =>
      if 1 ≤ n ∧ n ≤ 16 then
        match writeEmbeddedFrom rd.header.palette 0 n buffer with
        | some buf => .ok (buf, n, rd.decompressed, rd.rawRest)
        | none => .error .panicked
      else if n = 256 then
        match paletteLoop (rd.rawRest.length + 1) (List.replicate 769 0) 0
            rd.rawRest buffer with
        | .ok (buf, c, rest) => .ok (buf, c, [], rest)
        | .error e => .error e
      else .ok (buffer, 0, rd.decompressed, rd.rawRest)
  | none => .ok (buffer, 0, rd.decompressed, rd.rawRest)

/-- Re-packing of pixel indices as the spec words it: most-significant
group first, `8/d` indices per byte — one byte from one full chunk. -/
def packChunk (d : ℕ) (chunk : List ℕ) : ℕ :=
  chunk.foldl (fun acc v => acc * 2 ^ d + v % 2 ^ d) 0

/-- Re-packing a whole index row (spec §8 round-trip law, claim side). -/
def packIndices (d : ℕ) (idx : List ℕ) : List ℕ :=
  (List.range (idx.length / (8 / d))).map
    (fun i => packChunk d ((idx.drop (i * (8 / d))).take (8 / d)))

/-! ### Fixtures: concrete headers and readers used by the theorems -/

/-- A 4-color, bit-depth-2, single-plane header; width 4, so one packed
lane byte with one padding byte (`lane_length` 2). -/
def hdrP2 : Header :=
  { bit_depth := 2, size := (4, 1), number_of_color_planes := 1,
    lane_length := 2, palette_length := some 4, palette := fun _ => (0, 0, 0) }

/-- Reader for `hdrP2`, about to decompress the packed lane byte 27
(0x1B) followed by its padding byte. -/
def rdP2 : Reader :=
  { header := hdrP2, decompressed := [27, 0], rawRest := [], num_lanes_read := 0 }

/-- A 256-color, 8-bit, single-plane header. -/
def hdr256 : Header :=
  { bit_depth := 8, size := (4, 1), number_of_color_planes := 1,
    lane_length := 4, palette_length := some 256, palette := fun _ => (0, 0, 0) }

/-- A 256-color trailing-palette stream: 400 leftover raw bytes followed
by the 0x0C marker and 768 palette bytes (total length 1169, which is
400 mod 769). -/
def rdTrail400 : Reader :=
  { header := hdr256, decompressed := [],
    rawRest := List.replicate 400 7 ++ 12 :: List.replicate 768 5,
    num_lanes_read := 0 }

/-- A 256-color stream of 1169 zero bytes: its final 769-byte window does
not begin with the 0x0C marker. -/
def rdNoMarker : Reader :=
  { header := hdr256, decompressed := [], rawRest := List.replicate 1169 0,
    num_lanes_read := 0 }

/-- A 256-color stream that is exactly a marker plus 768 palette bytes. -/
def rdTrailExact : Reader :=
  { header := hdr256, decompressed := [], rawRest := 12 :: List.replicate 768 9,
    num_lanes_read := 0 }

/-- An 8-bit header of width 2 whose stored lane length is also 2, so
`lane_padding` is 0. -/
def hdrW2 : Header :=
  { bit_depth := 8, size := (2, 1), number_of_color_planes := 1,
    lane_length := 2, palette_length := some 256, palette := fun _ => (0, 0, 0) }

/-- Reader for `hdrW2` whose decompression stream ends after a single
byte, one byte short of a full lane. -/
def rdShort : Reader :=
  { header := hdrW2, decompressed := [7], rawRest := [], num_lanes_read := 0 }

/-- A 24-bit RGB header (3 planes, no palette). -/
def hdrRgb : Header :=
  { bit_depth := 8, size := (2, 1), number_of_color_planes := 3,
    lane_length := 2, palette_length := none, palette := fun _ => (0, 0, 0) }

/-- RGB reader whose lane counter is 1, i.e. not a multiple of 3. -/
def rdRgbMisaligned : Reader :=
  { header := hdrRgb, decompressed := [1, 2, 3, 4, 5, 6], rawRest := [],
    num_lanes_read := 1 }

/-- RGB reader in a clean state (lane counter 0). -/
def rdRgbClean : Reader :=
  { header := hdrRgb, decompressed := [1, 2, 3, 4, 5, 6], rawRest := [],
    num_lanes_read := 0 }

/-- A 2-color paletted reader (used to call `next_row_rgb` in the wrong
mode). -/
def rdPal2 : Reader :=
  { header := { bit_depth := 1, size := (8, 1), number_of_color_planes := 1,
                lane_length := 2, palette_length := some 2,
                palette := fun _ => (0, 0, 0) },
    decompressed := [255, 0], rawRest := [], num_lanes_read := 0 }

/-- An embedded-palette header with 2 colors whose entries are pairwise
distinct bytes. -/
def hdrEmb2 : Header :=
  { bit_depth := 1, size := (8, 1), number_of_color_planes := 1,
    lane_length := 2, palette_length := some 2,
    palette := fun i => (i, i + 10, i + 20) }

/-- Reader for `hdrEmb2` with a nonempty decompression stream, to show
the embedded case leaves both streams untouched. -/
def rdEmb2 : Reader :=
  { header := hdrEmb2, decompressed := [1, 2], rawRest := [3, 4],
    num_lanes_read := 0 }

/-- A 16-color embedded-palette header. -/
def hdrEmb16 : Header :=
  { bit_depth := 4, size := (4, 1), number_of_color_planes := 1,
    lane_length := 2, palette_length := some 16, palette := fun i => (i, i, i) }

/-- Reader for `hdrEmb16`. -/
def rdEmb16 : Reader :=
  { header := hdrEmb16, decompressed := [], rawRest := [], num_lanes_read := 0 }

/-- A multi-plane paletted header (8 colors via 3 one-bit planes), the
unimplemented Case C. -/
def hdrPlanar : Header :=
  { bit_depth := 1, size := (2, 1), number_of_color_planes := 3,
    lane_length := 2, palette_length := some 8, palette := fun _ => (0, 0, 0) }

/-- Reader for `hdrPlanar` with pending stream bytes, to show the no-op
consumes nothing. -/
def rdPlanar : Reader :=
  { header := hdrPlanar, decompressed := [9, 9], rawRest := [8],
    num_lanes_read := 0 }

/-! ### Helper lemmas -/

lemma length_writeAt (l : List ℕ) (pos : ℕ) (data : List ℕ)
    (h : pos + data.length ≤ l.length) :
    (writeAt l pos data).length = l.length := by
  simp [writeAt]
  omega

lemma writeEmbeddedFrom_spec (pal : ℕ → ℕ × ℕ × ℕ) :
    ∀ (k i : ℕ) (buf : List ℕ), 3 * (i + k) ≤ buf.length →
      writeEmbeddedFrom pal i k buf =
        some (buf.take (3 * i) ++ palFlat pal i k ++ buf.drop (3 * i + 3 * k)) := by
  intro k
  induction k with
  | zero =>
      intro i buf _
      simp [writeEmbeddedFrom, palFlat]
  | succ k ih =>
      intro i buf h
      have hle : (i + 1) * 3 ≤ buf.length := by omega
      have htk : (buf.take (i * 3)).length = i * 3 := by
        rw [List.length_take]
        omega
      simp only [writeEmbeddedFrom, if_pos hle]
      have hlen : (writeAt buf (i * 3)
          [(pal i).1, (pal i).2.1, (pal i).2.2]).length = buf.length := by
        apply length_writeAt
        simp
        omega
      rw [ih (i + 1) _ (by rw [hlen]; omega)]
      congr 1
      have hA : writeAt buf (i * 3) [(pal i).1, (pal i).2.1, (pal i).2.2]
          = (buf.take (i * 3) ++ [(pal i).1, (pal i).2.1, (pal i).2.2])
            ++ buf.drop (i * 3 + 3) := by
        simp [writeAt]
      have hAl : (buf.take (i * 3) ++
          [(pal i).1, (pal i).2.1, (pal i).2.2]).length = 3 * (i + 1) := by
        simp [htk]
        omega
      have htake : (writeAt buf (i * 3)
            [(pal i).1, (pal i).2.1, (pal i).2.2]).take (3 * (i + 1))
          = buf.take (i * 3) ++ [(pal i).1, (pal i).2.1, (pal i).2.2] := by
        rw [hA, List.take_left' hAl]
      have hdrop : ∀ m : ℕ, (writeAt buf (i * 3)
            [(pal i).1, (pal i).2.1, (pal i).2.2]).drop (3 * (i + 1) + m)
          = buf.drop (i * 3 + 3 + m) := by
        intro m
        rw [hA]
        rw [show 3 * (i + 1) + m = ((buf.take (i * 3) ++
          [(pal i).1, (pal i).2.1, (pal i).2.2]).length) + m by rw [hAl]]
        rw [List.drop_append]
        rw [List.drop_drop]
      rw [htake, hdrop (3 * k)]
      rw [show palFlat pal i (k + 1)
          = (pal i).1 :: (pal i).2.1 :: (pal i).2.2 :: palFlat pal (i + 1) k
          from rfl]
      simp
      rw [show i * 3 = 3 * i from by ring]
      rw [show 3 * i + 3 + 3 * k = 3 * i + 3 * (k + 1) from by ring]

lemma writeEmbeddedFrom_short (pal : ℕ → ℕ × ℕ × ℕ) :
    ∀ (k i : ℕ) (buf : List ℕ), buf.length < 3 * (i + k) → k ≠ 0 →
      writeEmbeddedFrom pal i k buf = none := by
  intro k
  induction k with
  | zero =>
      intro i buf _ hk
      exact absurd rfl hk
  | succ k ih =>
      intro i buf h _
      by_cases hle : (i + 1) * 3 ≤ buf.length
      · simp only [writeEmbeddedFrom, if_pos hle]
        have hlen : (writeAt buf (i * 3)
            [(pal i).1, (pal i).2.1, (pal i).2.2]).length = buf.length := by
          apply length_writeAt
          simp
          omega
        exact ih (i + 1) _ (by rw [hlen]; omega) (by omega)
      · simp only [writeEmbeddedFrom, if_neg hle]

/-! ### Claim theorems -/

set_option maxRecDepth 200000 in
/-- Claim C1: for a 256-color trailing-palette stream whose last 769
bytes are the 0x0C marker followed by 768 color bytes, the claim says
`read_palette` returns 256 and the 768 color bytes regardless of how
many bytes precede the palette.  The code refutes this: with 400
preceding bytes (and greedy in-memory reads) the refill loop reaches
write offset 400 and then slices `temp_buffer[400..769-400]`, an
inverted range, so the call panics instead of returning the palette. -/
theorem read_palette_prefix400_panics :
    read_palette rdTrail400 (List.replicate 768 0) = .error .panicked := by
  decide

/-- Claim C2: the claim says the pixel written to position `i·(8/d)+j`
equals bits `[8 − d·(j+1), 8 − d·j)` of lane byte `i`.  For `d = 2` and
packed byte 27 the code instead extracts the overlapping groups
`[8 − d − j, 8 − j)`: the produced row is `[0, 0, 1, 3]`, while the
claimed formula puts `(27 >>> (8 − 2·(1+1))) % 2² = 1` at position 1. -/
theorem next_row_paletted_shift_formula_refuted :
    (next_row_paletted rdP2 [0, 0, 0, 0]).1 = .ok [0, 0, 1, 3] ∧
    ¬ [0, 0, 1, 3].get? 1 = some ((27 >>> (8 - 2 * (1 + 1))) % 2 ^ 2) := by
  decide

/-- Claim C3: the claim says unpacking then re-packing (most-significant
group first) reproduces the packed lane for every `d ∈ {1,2,4}`.  For
`d = 2` the code unpacks byte 27 to `[0, 0, 1, 3]`, which re-packs to 7,
not 27 (the correctly unpacked row `[0, 1, 2, 3]` would re-pack to 27);
the round-trip law fails on the code. -/
theorem paletted_unpack_repack_not_roundtrip :
    (next_row_paletted rdP2 [0, 0, 0, 0]).1 = .ok [0, 0, 1, 3] ∧
    packIndices 2 [0, 0, 1, 3] ≠ [27] ∧
    packIndices 2 [0, 1, 2, 3] = [27] := by
  decide

/-- Claim C4: the claim says `next_lane` either fills the whole buffer or
fails with an I/O error when the stream ends early.  The code ignores
the count returned by the single `read` call: with `lane_padding = 0`
and only one byte left for a 2-byte lane, it returns success with a
half-filled buffer and still increments the lane counter. -/
theorem next_lane_short_stream_success :
    (next_lane rdShort [0, 0]).1 = .ok [7, 0] ∧
    (next_lane rdShort [0, 0]).2.decompressed = [] ∧
    (next_lane rdShort [0, 0]).2.num_lanes_read = 1 := by
  decide

set_option maxRecDepth 200000 in
/-- Claim C5: the claim says a trailing-palette stream whose final
769-byte window does not begin with 0x0C always fails with an
invalid-data error and never panics.  On a 1169-byte marker-less stream
the refill loop panics on the inverted slice `temp_buffer[400..369]`
before it ever reaches the marker check. -/
theorem read_palette_no_marker_panics :
    read_palette rdNoMarker (List.replicate 768 0) = .error .panicked := by
  decide

/-- Claim C6: on a non-paletted reader whose lane counter is not a
multiple of 3, `next_row_rgb` fails with an invalid-input error and the
reader state — lane counter and both streams — is returned unchanged,
so no lane is read. -/
theorem next_row_rgb_misaligned_error (rd : Reader) (r g b : List ℕ)
    (h1 : rd.header.palette_length = none)
    (h2 : rd.num_lanes_read % 3 ≠ 0) :
    next_row_rgb rd r g b = (.error .invalidInput, rd) := by
  simp [next_row_rgb, Reader.is_paletted, h1, h2]

theorem next_row_rgb_misaligned_error_witness :
    rdRgbMisaligned.num_lanes_read % 3 ≠ 0 ∧
    next_row_rgb rdRgbMisaligned [0, 0] [0, 0] [0, 0] =
      (.error .invalidInput, rdRgbMisaligned) :=
  ⟨by decide,
   next_row_rgb_misaligned_error rdRgbMisaligned [0, 0] [0, 0] [0, 0] rfl
     (by decide)⟩

/-- Claim C7: `next_row_paletted` on a non-paletted image and
`next_row_rgb` on a paletted image both return an invalid-input error
(no panic) with the reader state unchanged, so no byte is consumed. -/
theorem row_readers_mode_mismatch_error :
    (∀ (rd : Reader) (buffer : List ℕ), rd.header.palette_length = none →
        next_row_paletted rd buffer = (.error .invalidInput, rd)) ∧
    (∀ (rd : Reader) (r g b : List ℕ) (n : ℕ),
        rd.header.palette_length = some n →
        next_row_rgb rd r g b = (.error .invalidInput, rd)) := by
  constructor
  · intro rd buffer h
    simp [next_row_paletted, Reader.is_paletted, h]
  · intro rd r g b n h
    simp [next_row_rgb, Reader.is_paletted, h]

theorem row_readers_mode_mismatch_error_witness :
    next_row_paletted rdRgbClean [0, 0] = (.error .invalidInput, rdRgbClean) ∧
    next_row_rgb rdPal2 [0, 0, 0, 0, 0, 0, 0, 0] [0, 0, 0, 0, 0, 0, 0, 0]
      [0, 0, 0, 0, 0, 0, 0, 0] = (.error .invalidInput, rdPal2) :=
  ⟨row_readers_mode_mismatch_error.1 rdRgbClean [0, 0] rfl,
   row_readers_mode_mismatch_error.2 rdPal2 _ _ _ 2 rfl⟩

/-- Claim C8: for an embedded palette of `n ∈ [1,16]` colors,
`read_palette` writes entry `i` verbatim at buffer offset `i·3` (the
buffer becomes the flattened R,G,B entries followed by its untouched
tail) and returns `n` with both streams unread; for a header with no
palette it returns 0 with both streams unread. -/
theorem read_palette_embedded_verbatim_and_none_zero :
    (∀ (rd : Reader) (n : ℕ) (buffer : List ℕ),
        rd.header.palette_length = some n → 1 ≤ n → n ≤ 16 →
        3 * n ≤ buffer.length →
        read_palette rd buffer =
          .ok (palFlat rd.header.palette 0 n ++ buffer.drop (3 * n), n,
               rd.decompressed, rd.rawRest)) ∧
    (∀ (rd : Reader) (buffer : List ℕ), rd.header.palette_length = none →
        read_palette rd buffer =
          .ok (buffer, 0, rd.decompressed, rd.rawRest)) := by
  constructor
  · intro rd n buffer h h1 h16 hlen
    simp only [read_palette, h]
    rw [if_pos ⟨h1, h16⟩]
    rw [writeEmbeddedFrom_spec rd.header.palette n 0 buffer (by omega)]
    simp
  · intro rd buffer h
    simp [read_palette, h]

theorem read_palette_embedded_verbatim_and_none_zero_witness :
    read_palette rdEmb2 [0, 0, 0, 0, 0, 0, 9] =
      .ok (palFlat rdEmb2.header.palette 0 2 ++
             [0, 0, 0, 0, 0, 0, 9].drop (3 * 2), 2,
           rdEmb2.decompressed, rdEmb2.rawRest) ∧
    read_palette rdRgbClean [] =
      .ok ([], 0, rdRgbClean.decompressed, rdRgbClean.rawRest) :=
  ⟨read_palette_embedded_verbatim_and_none_zero.1 rdEmb2 2 _ rfl (by decide)
     (by decide) (by decide),
   read_palette_embedded_verbatim_and_none_zero.2 rdRgbClean [] rfl⟩

/-- Claim C9: on a multi-plane paletted image (more than one plane, fewer
than 256 colors), `next_row_paletted` returns success with the caller
buffer completely unchanged and the reader state — decompression cursor
and lane counter — unmodified. -/
theorem next_row_paletted_planar_noop (rd : Reader) (buffer : List ℕ) (n : ℕ)
    (h1 : rd.header.palette_length = some n) (h2 : n < 256)
    (h3 : 1 < rd.header.number_of_color_planes) :
    next_row_paletted rd buffer = (.ok buffer, rd) := by
  have hn : n ≠ 256 := by omega
  have hp : rd.header.number_of_color_planes ≠ 1 := by omega
  simp [next_row_paletted, Reader.is_paletted, Reader.palette_length, h1, hn, hp]

theorem next_row_paletted_planar_noop_witness :
    next_row_paletted rdPlanar [5, 5] = (.ok [5, 5], rdPlanar) :=
  next_row_paletted_planar_noop rdPlanar [5, 5] 8 rfl (by decide) (by decide)

set_option maxRecDepth 200000 in
/-- Claim C10: `read_palette` implicitly requires 3 bytes of caller
buffer per returned color: in the embedded case any buffer shorter than
`3·n` makes the slice copy panic rather than return an error, and in the
256-color trailing case a 767-byte buffer panics on the copy of the
768-byte payload. -/
theorem read_palette_short_buffer_panics :
    (∀ (rd : Reader) (n : ℕ) (buffer : List ℕ),
        rd.header.palette_length = some n → 1 ≤ n → n ≤ 16 →
        buffer.length < 3 * n →
        read_palette rd buffer = .error .panicked) ∧
    read_palette rdTrailExact (List.replicate 767 0) = .error .panicked := by
  constructor
  · intro rd n buffer h h1 h16 hlen
    simp only [read_palette, h]
    rw [if_pos ⟨h1, h16⟩]
    rw [writeEmbeddedFrom_short rd.header.palette n 0 buffer (by omega)
      (by omega)]
  · decide

theorem read_palette_short_buffer_panics_witness :
    (List.replicate 47 0).length < 3 * 16 ∧
    read_palette rdEmb16 (List.replicate 47 0) = .error .panicked :=
  ⟨by decide,
   read_palette_short_buffer_panics.1 rdEmb16 16 _ rfl (by decide) (by decide)
     (by decide)⟩

end Pcx
